import Mathlib

/-!
Verification of the BCM2835 cpufreq driver
(`src/linux/drivers/cpufreq/bcm2835-cpufreq.c`).

The driver talks to the VideoCore firmware through a property channel
(`bcm2835_cpufreq_clock_property`), converts between Hz (wire) and kHz
(table), builds a two-entry (or degenerate one-entry) frequency table at
`init`, and serves `get` / `target_index` calls from the cpufreq governor
framework.

Shallow embedding conventions:
* `u32` values are `Nat` reduced modulo `U32 = 2^32` wherever C arithmetic
  can wrap.
* The firmware transport (`rpi_firmware_property`, external to the
  repository) is a parameter of type `Transport`: for each marshalled
  request it yields the C return code `ret` and the `packet.val` after the
  call.  A nonzero `ret` is a transport failure, exactly as in the C.
* The `CONFIG_MYTEE` security gate is the parameter `blocked : Bool`,
  standing for `*trusted_display_mmap_flag == 1 || *trusted_display_write_flag == 1`;
  a build without the gate corresponds to `blocked = false`.
* Every operation also returns the list of transport calls it issued, so
  that "exactly one call" / "no call" properties are statable.
* The uninitialized local `u32 rate` of `bcm2835_cpufreq_get_clock` is the
  parameter `junk`, an arbitrary 32-bit pattern.
-/

namespace BCM2835

/-- Modulus of unsigned 32-bit (`u32`) arithmetic. -/
def U32 : Nat := 2 ^ 32

/-- `#define VCMSG_ID_ARM_CLOCK 0x000000003` (from the source). -/
def VCMSG_ID_ARM_CLOCK : Nat := 3

/-- `-ENODEV`, returned by `init` when the firmware is unavailable. -/
def ENODEV_NEG : Int := -19

/-- `-EINVAL`, returned by `target_index` when the set yields rate 0. -/
def EINVAL_NEG : Int := -22

/-- Firmware tag constants (external header `raspberrypi-firmware.h`);
only used as distinct request selectors. -/
def RPI_FIRMWARE_GET_CLOCK_RATE : Nat := 0x00030002

def RPI_FIRMWARE_GET_MAX_CLOCK_RATE : Nat := 0x00030004

def RPI_FIRMWARE_GET_MIN_CLOCK_RATE : Nat := 0x00030007

def RPI_FIRMWARE_SET_CLOCK_RATE : Nat := 0x00038002

/-- One marshalled transport request: the tag passed alongside the
fixed-layout packet `{u32 id; u32 val;}`. -/
structure FwCall where
  tag : Nat
  id : Nat
  val : Nat
deriving Repr, DecidableEq

/-- The firmware transport: maps a request to the C return code of
`rpi_firmware_property` and the value left in `packet.val`. -/
def Transport : Type := FwCall → Int × Nat

/-- Result of `bcm2835_cpufreq_clock_property`: the C return code, the
final contents of the caller's `*val`, and the transport calls issued. -/
structure PropResult where
  ret : Int
  val : Nat
  calls : List FwCall
deriving Repr, DecidableEq

/-- `bcm2835_cpufreq_clock_property(tag, id, val)`.  When the MYTEE gate
signals blocked, the function jumps to `exit` and returns 0 with `*val`
untouched and no transport call.  Otherwise it marshals the packet, makes
exactly one transport call, propagates a nonzero `ret` with `*val`
untouched, and on success writes `packet.val` back to `*val`. -/
def bcm2835_cpufreq_clock_property (blocked : Bool) (fw : Transport)
    (tag id val : Nat) : PropResult :=
  if blocked then
    { ret := 0, val := val, calls := [] }
  else
    let c : FwCall := { tag := tag, id := id, val := val % U32 }
    let r := fw c
    if r.1 ≠ 0 then
      { ret := r.1, val := val, calls := [c] }
    else
      { ret := 0, val := r.2 % U32, calls := [c] }

/-- kHz → Hz conversion at the channel boundary: `u32 rate = arm_rate * 1000`. -/
def khz_to_hz (khz : Nat) : Nat := khz * 1000 % U32

/-- Hz → kHz conversion: `rate /= 1000` (truncating unsigned division). -/
def hz_to_khz (hz : Nat) : Nat := hz / 1000

/-- `bcm2835_cpufreq_set_clock(cur_rate, arm_rate)`: sends
`arm_rate * 1000` Hz, returns 0 on transport failure, else the echoed
rate divided by 1000.  (`cur_rate` is only used for debug printing.)
Also returns the transport calls issued. -/
def bcm2835_cpufreq_set_clock (blocked : Bool) (fw : Transport)
    (cur_rate arm_rate : Nat) : Nat × List FwCall :=
  let r := bcm2835_cpufreq_clock_property blocked fw
      RPI_FIRMWARE_SET_CLOCK_RATE VCMSG_ID_ARM_CLOCK (khz_to_hz arm_rate)
  if r.ret ≠ 0 then (0, r.calls) else (hz_to_khz r.val, r.calls)

/-- `bcm2835_cpufreq_get_clock(tag)`: the local `u32 rate` is declared
without an initializer; its arbitrary 32-bit content is `junk % U32`.
Returns 0 on transport failure, else `rate / 1000`; also returns the
transport calls issued. -/
def bcm2835_cpufreq_get_clock (blocked : Bool) (fw : Transport)
    (tag : Nat) (junk : Nat) : Nat × List FwCall :=
  let r := bcm2835_cpufreq_clock_property blocked fw
      tag VCMSG_ID_ARM_CLOCK (junk % U32)
  if r.ret ≠ 0 then (0, r.calls) else (hz_to_khz r.val, r.calls)

/-- One slot of `struct cpufreq_frequency_table`: a frequency in kHz or
the `CPUFREQ_TABLE_END` sentinel. -/
inductive TableEntry where
  | freq (khz : Nat)
  | tableEnd
deriving Repr, DecidableEq

/-- The static `bcm2835_freq_table[3]`. -/
structure FreqTable where
  e0 : TableEntry
  e1 : TableEntry
  e2 : TableEntry
deriving Repr, DecidableEq

/-- The driver's globals: `min_frequency`, `max_frequency` (kHz) and the
frequency table. -/
structure DriverState where
  min_frequency : Nat
  max_frequency : Nat
  table : FreqTable
deriving Repr, DecidableEq

/-- The populated frequency entries of the table, up to the first
sentinel; `none` when no sentinel terminates the table. -/
def freqsBeforeEnd (t : FreqTable) : Option (List Nat) :=
  match t.e0 with
  | .tableEnd => some []
  | .freq f0 =>
    match t.e1 with
    | .tableEnd => some [f0]
    | .freq f1 =>
      match t.e2 with
      | .tableEnd => some [f0, f1]
      | .freq _ => none

/-- `true` iff consecutive elements are non-decreasing. -/
def nondecreasing : List Nat → Bool
  | [] => true
  | [_] => true
  | a :: b :: rest => decide (a ≤ b) && nondecreasing (b :: rest)

/-- `true` iff the table is sentinel-terminated and its populated
frequency entries are monotonically non-decreasing by index. -/
def tableMonoB (t : FreqTable) : Bool :=
  match freqsBeforeEnd t with
  | none => false
  | some l => nondecreasing l

/-- Result of a driver entry point that reports a return code: the code,
the driver globals afterwards, and the transport calls issued. -/
structure OpResult where
  ret : Int
  state : DriverState
  calls : List FwCall
deriving Repr, DecidableEq

/-- `bcm2835_cpufreq_driver_init(policy)`.  `fwAvailable` models the
`rpi_firmware_get(NULL)` existence probe; if it fails the function
returns `-ENODEV` before any clock query and the globals keep their
prior value `s`.  Otherwise it queries min and max, builds the table
(slot 2 keeps its prior content in the `min == max` case), and returns
the result of `cpufreq_generic_init` — external framework code, modelled
as succeeding (return 0). -/
def bcm2835_cpufreq_driver_init (fwAvailable blocked : Bool) (fw : Transport)
    (junkMin junkMax : Nat) (s : DriverState) : OpResult :=
  if fwAvailable = false then
    { ret := ENODEV_NEG, state := s, calls := [] }
  else
    let rMin := bcm2835_cpufreq_get_clock blocked fw
        RPI_FIRMWARE_GET_MIN_CLOCK_RATE junkMin
    let rMax := bcm2835_cpufreq_get_clock blocked fw
        RPI_FIRMWARE_GET_MAX_CLOCK_RATE junkMax
    let minf := rMin.1
    let maxf := rMax.1
    let table : FreqTable :=
      if minf = maxf then
        { e0 := .freq minf, e1 := .tableEnd, e2 := s.table.e2 }
      else
        { e0 := .freq minf, e1 := .freq maxf, e2 := .tableEnd }
    { ret := 0,
      state := { min_frequency := minf, max_frequency := maxf, table := table },
      calls := rMin.2 ++ rMax.2 }

/-- `bcm2835_cpufreq_driver_target_index(policy, state)`: picks
`min_frequency` for index 0, `max_frequency` otherwise, issues one set
through the channel, and returns `-EINVAL` iff the resulting rate is 0.
The driver globals are never written here (`s` is passed through). -/
def bcm2835_cpufreq_driver_target_index (blocked : Bool) (fw : Transport)
    (policy_cur : Nat) (state_idx : Nat) (s : DriverState) : OpResult :=
  let target_freq := if state_idx = 0 then s.min_frequency else s.max_frequency
  let r := bcm2835_cpufreq_set_clock blocked fw policy_cur target_freq
  if r.1 = 0 then
    { ret := EINVAL_NEG, state := s, calls := r.2 }
  else
    { ret := 0, state := s, calls := r.2 }

/-- `bcm2835_cpufreq_driver_get(cpu)`: queries the current rate and snaps
it to `min_frequency` when `actual_rate ≤ min_frequency`, else
`max_frequency`. -/
def bcm2835_cpufreq_driver_get (blocked : Bool) (fw : Transport)
    (junk : Nat) (s : DriverState) : Nat :=
  let actual_rate := (bcm2835_cpufreq_get_clock blocked fw
      RPI_FIRMWARE_GET_CLOCK_RATE junk).1
  if actual_rate ≤ s.min_frequency then s.min_frequency else s.max_frequency

/-- A transport that answers every request with return code `ret` and
value `v`. -/
def fwConst (ret : Int) (v : Nat) : Transport := fun _ => (ret, v)

/-- A transport that answers the GET-minimum tag with `(retMin, vMin)`
and everything else with `(retMax, vMax)`. -/
def fwMinMax (retMin : Int) (vMin : Nat) (retMax : Int) (vMax : Nat) :
    Transport :=
  fun c =>
    if c.tag = RPI_FIRMWARE_GET_MIN_CLOCK_RATE then (retMin, vMin)
    else (retMax, vMax)

/-- A pre-`init` driver state used in closed statements. -/
def s0 : DriverState :=
  { min_frequency := 0, max_frequency := 0,
    table := { e0 := .tableEnd, e1 := .tableEnd, e2 := .tableEnd } }

example :
    (bcm2835_cpufreq_driver_init true false (fwMinMax 0 200000 0 800000)
      0 0 s0).state.min_frequency = 200 := by decide

example :
    (bcm2835_cpufreq_driver_init true false (fwMinMax 0 200000 0 800000)
      0 0 s0).state.table =
    { e0 := .freq 200, e1 := .freq 800, e2 := .tableEnd } := by decide

example :
    bcm2835_cpufreq_driver_get false (fwConst 0 750000) 0
      { min_frequency := 200, max_frequency := 800, table := s0.table }
    = 800 := by decide

/-! ### Helper lemmas (shared, not claim theorems) -/

lemma clock_property_true_eq (fw : Transport) (tag id val : Nat) :
    bcm2835_cpufreq_clock_property true fw tag id val =
      { ret := 0, val := val, calls := [] } := rfl

lemma get_clock_true_eq (fw : Transport) (tag junk : Nat) :
    bcm2835_cpufreq_get_clock true fw tag junk = (junk % U32 / 1000, []) := by
  simp [bcm2835_cpufreq_get_clock, bcm2835_cpufreq_clock_property, hz_to_khz]

lemma get_clock_ok (fw : Transport) (tag junk : Nat)
    (h : (fw { tag := tag, id := VCMSG_ID_ARM_CLOCK, val := junk % U32 }).1 = 0) :
    bcm2835_cpufreq_get_clock false fw tag junk =
      ((fw { tag := tag, id := VCMSG_ID_ARM_CLOCK, val := junk % U32 }).2 % U32 / 1000,
       [{ tag := tag, id := VCMSG_ID_ARM_CLOCK, val := junk % U32 }]) := by
  simp [bcm2835_cpufreq_get_clock, bcm2835_cpufreq_clock_property, hz_to_khz, h]

lemma get_clock_err (fw : Transport) (tag junk : Nat)
    (h : (fw { tag := tag, id := VCMSG_ID_ARM_CLOCK, val := junk % U32 }).1 ≠ 0) :
    bcm2835_cpufreq_get_clock false fw tag junk =
      (0, [{ tag := tag, id := VCMSG_ID_ARM_CLOCK, val := junk % U32 }]) := by
  simp [bcm2835_cpufreq_get_clock, bcm2835_cpufreq_clock_property, h]

lemma driver_init_available (blocked : Bool) (fw : Transport)
    (jMin jMax : Nat) (s : DriverState) :
    bcm2835_cpufreq_driver_init true blocked fw jMin jMax s =
      { ret := 0,
        state :=
          { min_frequency :=
              (bcm2835_cpufreq_get_clock blocked fw RPI_FIRMWARE_GET_MIN_CLOCK_RATE jMin).1,
            max_frequency :=
              (bcm2835_cpufreq_get_clock blocked fw RPI_FIRMWARE_GET_MAX_CLOCK_RATE jMax).1,
            table :=
              if (bcm2835_cpufreq_get_clock blocked fw RPI_FIRMWARE_GET_MIN_CLOCK_RATE jMin).1 =
                 (bcm2835_cpufreq_get_clock blocked fw RPI_FIRMWARE_GET_MAX_CLOCK_RATE jMax).1 then
                { e0 := .freq (bcm2835_cpufreq_get_clock blocked fw
                    RPI_FIRMWARE_GET_MIN_CLOCK_RATE jMin).1,
                  e1 := .tableEnd, e2 := s.table.e2 }
              else
                { e0 := .freq (bcm2835_cpufreq_get_clock blocked fw
                    RPI_FIRMWARE_GET_MIN_CLOCK_RATE jMin).1,
                  e1 := .freq (bcm2835_cpufreq_get_clock blocked fw
                    RPI_FIRMWARE_GET_MAX_CLOCK_RATE jMax).1,
                  e2 := .tableEnd } },
        calls :=
          (bcm2835_cpufreq_get_clock blocked fw RPI_FIRMWARE_GET_MIN_CLOCK_RATE jMin).2 ++
          (bcm2835_cpufreq_get_clock blocked fw RPI_FIRMWARE_GET_MAX_CLOCK_RATE jMax).2 } := rfl

lemma fwMinMax_at_min (retMin : Int) (vMin : Nat) (retMax : Int) (vMax : Nat)
    (id v : Nat) :
    fwMinMax retMin vMin retMax vMax
      { tag := RPI_FIRMWARE_GET_MIN_CLOCK_RATE, id := id, val := v } =
      (retMin, vMin) := by
  simp [fwMinMax]

lemma fwMinMax_at_max (retMin : Int) (vMin : Nat) (retMax : Int) (vMax : Nat)
    (id v : Nat) :
    fwMinMax retMin vMin retMax vMax
      { tag := RPI_FIRMWARE_GET_MAX_CLOCK_RATE, id := id, val := v } =
      (retMax, vMax) := by
  simp [fwMinMax, RPI_FIRMWARE_GET_MAX_CLOCK_RATE, RPI_FIRMWARE_GET_MIN_CLOCK_RATE]

lemma mod_u32_div1000_le (x : Nat) : x % U32 / 1000 ≤ 4294967 := by
  have h2 : x % U32 < U32 := Nat.mod_lt x (by decide)
  have h3 : U32 = 4294967296 := by norm_num [U32]
  rw [h3] at h2 ⊢
  omega

lemma get_clock_fst_le (b : Bool) (fw : Transport) (tag junk : Nat) :
    (bcm2835_cpufreq_get_clock b fw tag junk).1 ≤ 4294967 := by
  cases b with
  | true =>
    rw [get_clock_true_eq]
    exact mod_u32_div1000_le junk
  | false =>
    by_cases h : (fw { tag := tag, id := VCMSG_ID_ARM_CLOCK, val := junk % U32 }).1 = 0
    · rw [get_clock_ok fw tag junk h]
      exact mod_u32_div1000_le _
    · rw [get_clock_err fw tag junk h]
      exact Nat.zero_le _

lemma get_clock_fwMinMax_min_ok (vMin : Nat) (retMax : Int) (vMax j : Nat) :
    bcm2835_cpufreq_get_clock false (fwMinMax 0 vMin retMax vMax)
      RPI_FIRMWARE_GET_MIN_CLOCK_RATE j =
      (vMin % U32 / 1000,
       [FwCall.mk RPI_FIRMWARE_GET_MIN_CLOCK_RATE VCMSG_ID_ARM_CLOCK (j % U32)]) := by
  have h1 : (fwMinMax 0 vMin retMax vMax (FwCall.mk RPI_FIRMWARE_GET_MIN_CLOCK_RATE
      VCMSG_ID_ARM_CLOCK (j % U32))).1 = 0 := by rw [fwMinMax_at_min]
  rw [get_clock_ok _ _ _ h1, fwMinMax_at_min]

lemma get_clock_fwMinMax_max_ok (retMin : Int) (vMin vMax j : Nat) :
    bcm2835_cpufreq_get_clock false (fwMinMax retMin vMin 0 vMax)
      RPI_FIRMWARE_GET_MAX_CLOCK_RATE j =
      (vMax % U32 / 1000,
       [FwCall.mk RPI_FIRMWARE_GET_MAX_CLOCK_RATE VCMSG_ID_ARM_CLOCK (j % U32)]) := by
  have h1 : (fwMinMax retMin vMin 0 vMax (FwCall.mk RPI_FIRMWARE_GET_MAX_CLOCK_RATE
      VCMSG_ID_ARM_CLOCK (j % U32))).1 = 0 := by rw [fwMinMax_at_max]
  rw [get_clock_ok _ _ _ h1, fwMinMax_at_max]

lemma get_clock_fwMinMax_min_err (retMin : Int) (vMin : Nat) (retMax : Int)
    (vMax j : Nat) (h : retMin ≠ 0) :
    bcm2835_cpufreq_get_clock false (fwMinMax retMin vMin retMax vMax)
      RPI_FIRMWARE_GET_MIN_CLOCK_RATE j =
      (0, [FwCall.mk RPI_FIRMWARE_GET_MIN_CLOCK_RATE VCMSG_ID_ARM_CLOCK (j % U32)]) := by
  have h1 : (fwMinMax retMin vMin retMax vMax (FwCall.mk RPI_FIRMWARE_GET_MIN_CLOCK_RATE
      VCMSG_ID_ARM_CLOCK (j % U32))).1 ≠ 0 := by rw [fwMinMax_at_min]; exact h
  rw [get_clock_err _ _ _ h1]

lemma get_clock_fwMinMax_max_err (retMin : Int) (vMin : Nat) (retMax : Int)
    (vMax j : Nat) (h : retMax ≠ 0) :
    bcm2835_cpufreq_get_clock false (fwMinMax retMin vMin retMax vMax)
      RPI_FIRMWARE_GET_MAX_CLOCK_RATE j =
      (0, [FwCall.mk RPI_FIRMWARE_GET_MAX_CLOCK_RATE VCMSG_ID_ARM_CLOCK (j % U32)]) := by
  have h1 : (fwMinMax retMin vMin retMax vMax (FwCall.mk RPI_FIRMWARE_GET_MAX_CLOCK_RATE
      VCMSG_ID_ARM_CLOCK (j % U32))).1 ≠ 0 := by rw [fwMinMax_at_max]; exact h
  rw [get_clock_err _ _ _ h1]

lemma khz_to_hz_mod (t : Nat) : khz_to_hz t % U32 = khz_to_hz t := by
  rw [khz_to_hz]
  exact Nat.mod_mod_of_dvd _ dvd_rfl

lemma set_clock_calls (fw : Transport) (cur t : Nat) :
    (bcm2835_cpufreq_set_clock false fw cur t).2 =
      [FwCall.mk RPI_FIRMWARE_SET_CLOCK_RATE VCMSG_ID_ARM_CLOCK (khz_to_hz t)] := by
  rw [bcm2835_cpufreq_set_clock, bcm2835_cpufreq_clock_property]
  simp only [khz_to_hz_mod]
  by_cases hf : (fw (FwCall.mk RPI_FIRMWARE_SET_CLOCK_RATE VCMSG_ID_ARM_CLOCK
      (khz_to_hz t))).1 = 0 <;> simp [hf]

lemma target_index_calls (fw : Transport) (cur idx : Nat) (s : DriverState) :
    (bcm2835_cpufreq_driver_target_index false fw cur idx s).calls =
      [FwCall.mk RPI_FIRMWARE_SET_CLOCK_RATE VCMSG_ID_ARM_CLOCK
        (khz_to_hz (if idx = 0 then s.min_frequency else s.max_frequency))] := by
  rw [bcm2835_cpufreq_driver_target_index]
  by_cases h : (bcm2835_cpufreq_set_clock false fw cur
      (if idx = 0 then s.min_frequency else s.max_frequency)).1 = 0 <;>
    simp [h, set_clock_calls]

/-! ### Claim theorems -/

/-- C2: for every transport-reported current rate, `get` converts it from
Hz to kHz (truncating) and returns `min_frequency` when the converted rate
is ≤ `min_frequency`, else `max_frequency`; consequently, over any
transport, gate state, and uninitialized-local content, the result is
always exactly one of the two stored operating points. -/
theorem get_snaps_to_operating_point (v junk : Nat) (s : DriverState) :
    bcm2835_cpufreq_driver_get false (fwConst 0 v) junk s =
      (if v % U32 / 1000 ≤ s.min_frequency then s.min_frequency
       else s.max_frequency) ∧
    ∀ (b : Bool) (fw : Transport) (j : Nat),
      bcm2835_cpufreq_driver_get b fw j s = s.min_frequency ∨
      bcm2835_cpufreq_driver_get b fw j s = s.max_frequency := by
  constructor
  · have h : (fwConst 0 v (FwCall.mk RPI_FIRMWARE_GET_CLOCK_RATE
        VCMSG_ID_ARM_CLOCK (junk % U32))).1 = 0 := rfl
    rw [bcm2835_cpufreq_driver_get, get_clock_ok (fwConst 0 v) _ junk h]
    simp [fwConst]
  · intro b fw j
    rw [bcm2835_cpufreq_driver_get]
    by_cases h : (bcm2835_cpufreq_get_clock b fw RPI_FIRMWARE_GET_CLOCK_RATE j).1 ≤
        s.min_frequency
    · left; simp [h]
    · right; simp [h]

/-- C5: `target_index` returns `-EINVAL` exactly when the set-clock call
it makes yields rate 0, and success (0) for any non-zero rate; in both
cases the driver globals are passed through unchanged. -/
theorem target_index_einval_iff_zero_rate (blocked : Bool) (fw : Transport)
    (policy_cur state_idx : Nat) (s : DriverState) :
    (bcm2835_cpufreq_driver_target_index blocked fw policy_cur state_idx s).ret
      = (if (bcm2835_cpufreq_set_clock blocked fw policy_cur
              (if state_idx = 0 then s.min_frequency else s.max_frequency)).1 = 0
         then EINVAL_NEG else 0) ∧
    (bcm2835_cpufreq_driver_target_index blocked fw policy_cur state_idx s).state
      = s := by
  rw [bcm2835_cpufreq_driver_target_index]
  by_cases h : (bcm2835_cpufreq_set_clock blocked fw policy_cur
      (if state_idx = 0 then s.min_frequency else s.max_frequency)).1 = 0 <;>
    simp [h]

/-- C6: when the firmware existence probe fails, `init` returns `-ENODEV`
with no transport call issued (no clock rate queried) and the driver
globals — including the frequency table — unchanged. -/
theorem init_enodev_when_fw_unavailable (blocked : Bool) (fw : Transport)
    (junkMin junkMax : Nat) (s : DriverState) :
    bcm2835_cpufreq_driver_init false blocked fw junkMin junkMax s =
      { ret := ENODEV_NEG, state := s, calls := [] } := rfl

/-- C7: while the security gate signals blocked, the channel makes no
transport call and returns success (0) with the caller's value unchanged;
when the gate is unblocked (or absent, i.e. always-false), exactly one
transport call is made. -/
theorem clock_property_blocked_noop_unblocked_one_call (fw : Transport)
    (tag id val : Nat) :
    bcm2835_cpufreq_clock_property true fw tag id val =
      { ret := 0, val := val, calls := [] } ∧
    (bcm2835_cpufreq_clock_property false fw tag id val).calls.length = 1 := by
  refine ⟨rfl, ?_⟩
  rw [bcm2835_cpufreq_clock_property]
  by_cases h : (fw { tag := tag, id := id, val := val % U32 }).1 = 0 <;> simp [h]

/-- C10: under a blocked gate the channel's skip path returns success
without writing the caller's rate variable; `bcm2835_cpufreq_get_clock`
therefore divides the never-initialized 32-bit content `junk` by 1000 and
returns it, so the rate reported by `get` (and any bound stored by `init`)
is determined by that unspecified content and is independent of the
transport — not the hardware rate and not a meaningful echo. -/
theorem blocked_get_returns_uninitialized_value (fw fw2 : Transport)
    (tag id junk : Nat) (s : DriverState) :
    (bcm2835_cpufreq_clock_property true fw tag id junk).ret = 0 ∧
    (bcm2835_cpufreq_clock_property true fw tag id junk).val = junk ∧
    (bcm2835_cpufreq_clock_property true fw tag id junk).calls = [] ∧
    (bcm2835_cpufreq_get_clock true fw tag junk).1 = junk % U32 / 1000 ∧
    bcm2835_cpufreq_driver_get true fw junk s =
      (if junk % U32 / 1000 ≤ s.min_frequency then s.min_frequency
       else s.max_frequency) ∧
    bcm2835_cpufreq_driver_get true fw junk s =
      bcm2835_cpufreq_driver_get true fw2 junk s := by
  refine ⟨rfl, rfl, rfl, ?_, ?_, ?_⟩
  · rw [get_clock_true_eq]
  · rw [bcm2835_cpufreq_driver_get, get_clock_true_eq]
  · rw [bcm2835_cpufreq_driver_get, bcm2835_cpufreq_driver_get,
      get_clock_true_eq, get_clock_true_eq]

/-- C1: for every pair of firmware-reported minimum and maximum rates,
`init` stores the converted (Hz→kHz) bounds and builds the table as
`[min, TABLE_END]` with slot 2 untouched when the converted bounds are
equal, and `[min, max, TABLE_END]` otherwise; in every case the last
populated slot is the sentinel. -/
theorem init_builds_min_max_sentinel_table (vMin vMax jMin jMax : Nat)
    (s : DriverState) :
    (bcm2835_cpufreq_driver_init true false (fwMinMax 0 vMin 0 vMax)
      jMin jMax s).ret = 0 ∧
    (bcm2835_cpufreq_driver_init true false (fwMinMax 0 vMin 0 vMax)
      jMin jMax s).state.min_frequency = vMin % U32 / 1000 ∧
    (bcm2835_cpufreq_driver_init true false (fwMinMax 0 vMin 0 vMax)
      jMin jMax s).state.max_frequency = vMax % U32 / 1000 ∧
    (bcm2835_cpufreq_driver_init true false (fwMinMax 0 vMin 0 vMax)
      jMin jMax s).state.table =
      (if vMin % U32 / 1000 = vMax % U32 / 1000 then
        { e0 := TableEntry.freq (vMin % U32 / 1000), e1 := TableEntry.tableEnd,
          e2 := s.table.e2 }
       else
        { e0 := TableEntry.freq (vMin % U32 / 1000),
          e1 := TableEntry.freq (vMax % U32 / 1000),
          e2 := TableEntry.tableEnd }) ∧
    (freqsBeforeEnd (bcm2835_cpufreq_driver_init true false (fwMinMax 0 vMin 0 vMax)
      jMin jMax s).state.table).isSome = true := by
  rw [driver_init_available, get_clock_fwMinMax_min_ok, get_clock_fwMinMax_max_ok]
  refine ⟨rfl, rfl, rfl, rfl, ?_⟩
  by_cases h : vMin % U32 / 1000 = vMax % U32 / 1000 <;>
    simp [h, freqsBeforeEnd]

/-- C3: `target_index` selects `min_frequency` for index 0 and
`max_frequency` for any non-zero index, and issues a single SET request
through the channel carrying that target rate converted to Hz (the kHz
value multiplied by 1000, as u32). -/
theorem target_index_sends_selected_rate (fw : Transport)
    (policy_cur state_idx : Nat) (s : DriverState) :
    (bcm2835_cpufreq_driver_target_index false fw policy_cur state_idx s).calls =
      [FwCall.mk RPI_FIRMWARE_SET_CLOCK_RATE VCMSG_ID_ARM_CLOCK
        (khz_to_hz (if state_idx = 0 then s.min_frequency else s.max_frequency))] :=
  target_index_calls fw policy_cur state_idx s

/-- C4 counterexample: with the GET-minimum request succeeding at
600000 Hz and the GET-maximum request failing (transport return code 1),
`init` completes with `min_frequency = 600 > max_frequency = 0` and a
decreasing table, refuting the claimed invariant for arbitrary firmware
responses. -/
theorem init_min_le_max_counterexample :
    ¬ ((bcm2835_cpufreq_driver_init true false (fwMinMax 0 600000 1 0)
          0 0 s0).state.min_frequency ≤
        (bcm2835_cpufreq_driver_init true false (fwMinMax 0 600000 1 0)
          0 0 s0).state.max_frequency ∧
       tableMonoB (bcm2835_cpufreq_driver_init true false (fwMinMax 0 600000 1 0)
          0 0 s0).state.table = true) := by
  decide

/-- C4 (amended): after every completed `init` in which both GET requests
succeed and the converted minimum does not exceed the converted maximum,
the DriverState satisfies `min_frequency ≤ max_frequency` and the
populated frequency-table entries are monotonically non-decreasing by
index. -/
theorem init_ordered_responses_invariant (vMin vMax jMin jMax : Nat)
    (s : DriverState) (h : vMin % U32 / 1000 ≤ vMax % U32 / 1000) :
    (bcm2835_cpufreq_driver_init true false (fwMinMax 0 vMin 0 vMax)
      jMin jMax s).state.min_frequency ≤
      (bcm2835_cpufreq_driver_init true false (fwMinMax 0 vMin 0 vMax)
        jMin jMax s).state.max_frequency ∧
    tableMonoB (bcm2835_cpufreq_driver_init true false (fwMinMax 0 vMin 0 vMax)
      jMin jMax s).state.table = true := by
  rw [driver_init_available, get_clock_fwMinMax_min_ok, get_clock_fwMinMax_max_ok]
  refine ⟨h, ?_⟩
  by_cases heq : vMin % U32 / 1000 = vMax % U32 / 1000 <;>
    simp [heq, tableMonoB, freqsBeforeEnd, nondecreasing, h]

/-- Witness for the amended C4 at min = 200000 Hz, max = 800000 Hz. -/
theorem init_ordered_responses_invariant_witness :
    200000 % U32 / 1000 ≤ 800000 % U32 / 1000 ∧
    ((bcm2835_cpufreq_driver_init true false (fwMinMax 0 200000 0 800000)
        0 0 s0).state.min_frequency ≤
      (bcm2835_cpufreq_driver_init true false (fwMinMax 0 200000 0 800000)
        0 0 s0).state.max_frequency ∧
     tableMonoB (bcm2835_cpufreq_driver_init true false (fwMinMax 0 200000 0 800000)
        0 0 s0).state.table = true) :=
  ⟨by decide, init_ordered_responses_invariant 200000 800000 0 0 s0 (by decide)⟩

/-- C8: a transport failure on the GET-minimum or GET-maximum request at
`init` yields 0 for that bound instead of failing initialization (the
return code is 0 regardless), the 0 entry is still placed in the table
(slot 0 for the minimum, with the degenerate `[0, TABLE_END]` table when
both fail; slot 1 holds the maximum whenever the bounds differ), and no
raw transport error code reaches the governor framework from the get
path. -/
theorem init_transport_failure_zero_bound (retMin retMax : Int)
    (vMin vMax jMin jMax : Nat) (s : DriverState) :
    (bcm2835_cpufreq_driver_init true false (fwMinMax retMin vMin retMax vMax)
      jMin jMax s).ret = 0 ∧
    (retMin ≠ 0 →
      (bcm2835_cpufreq_driver_init true false (fwMinMax retMin vMin retMax vMax)
        jMin jMax s).state.min_frequency = 0 ∧
      (bcm2835_cpufreq_driver_init true false (fwMinMax retMin vMin retMax vMax)
        jMin jMax s).state.table.e0 = TableEntry.freq 0) ∧
    (retMax ≠ 0 →
      (bcm2835_cpufreq_driver_init true false (fwMinMax retMin vMin retMax vMax)
        jMin jMax s).state.max_frequency = 0) ∧
    (retMin ≠ 0 → retMax ≠ 0 →
      (bcm2835_cpufreq_driver_init true false (fwMinMax retMin vMin retMax vMax)
        jMin jMax s).state.table =
        { e0 := TableEntry.freq 0, e1 := TableEntry.tableEnd, e2 := s.table.e2 }) ∧
    ((bcm2835_cpufreq_driver_init true false (fwMinMax retMin vMin retMax vMax)
        jMin jMax s).state.min_frequency ≠
      (bcm2835_cpufreq_driver_init true false (fwMinMax retMin vMin retMax vMax)
        jMin jMax s).state.max_frequency →
      (bcm2835_cpufreq_driver_init true false (fwMinMax retMin vMin retMax vMax)
        jMin jMax s).state.table.e1 =
        TableEntry.freq ((bcm2835_cpufreq_driver_init true false
          (fwMinMax retMin vMin retMax vMax) jMin jMax s).state.max_frequency)) := by
  rw [driver_init_available]
  refine ⟨rfl, ?_, ?_, ?_, ?_⟩
  · intro h
    rw [get_clock_fwMinMax_min_err _ _ _ _ _ h]
    refine ⟨rfl, ?_⟩
    by_cases heq : (0 : Nat) =
        (bcm2835_cpufreq_get_clock false (fwMinMax retMin vMin retMax vMax)
          RPI_FIRMWARE_GET_MAX_CLOCK_RATE jMax).1 <;>
      simp [heq]
  · intro h
    rw [get_clock_fwMinMax_max_err _ _ _ _ _ h]
  · intro h1 h2
    rw [get_clock_fwMinMax_min_err _ _ _ _ _ h1,
      get_clock_fwMinMax_max_err _ _ _ _ _ h2]
    simp
  · intro hne
    simp only at hne ⊢
    rw [if_neg hne]

/-- Witness for C8: both GET requests fail with transport code 1; `init`
still returns 0, both bounds are 0, and the table degenerates to the
single zero-frequency entry followed by the sentinel. -/
theorem init_transport_failure_zero_bound_witness :
    (bcm2835_cpufreq_driver_init true false (fwMinMax 1 0 1 0) 0 0 s0).ret = 0 ∧
    (bcm2835_cpufreq_driver_init true false (fwMinMax 1 0 1 0)
      0 0 s0).state.min_frequency = 0 ∧
    (bcm2835_cpufreq_driver_init true false (fwMinMax 1 0 1 0)
      0 0 s0).state.table.e0 = TableEntry.freq 0 ∧
    (bcm2835_cpufreq_driver_init true false (fwMinMax 1 0 1 0)
      0 0 s0).state.max_frequency = 0 ∧
    (bcm2835_cpufreq_driver_init true false (fwMinMax 1 0 1 0)
      0 0 s0).state.table =
      { e0 := TableEntry.freq 0, e1 := TableEntry.tableEnd,
        e2 := TableEntry.tableEnd } := by
  have h := init_transport_failure_zero_bound 1 1 0 0 0 0 s0
  exact ⟨h.1, (h.2.1 (by decide)).1, (h.2.1 (by decide)).2,
    h.2.2.1 (by decide), h.2.2.2.1 (by decide) (by decide)⟩

/-- C9: rate arithmetic is u32 (`% 2^32` at every multiplication), the
Hz→kHz direction is truncating division by 1000, and for every kHz
frequency the driver actually sends across the channel boundary — a bound
stored by `init`, hence of the form `u32 / 1000` — the Hz value produced
by the kHz→Hz conversion is exactly the kHz value times 1000 (no u32
wraparound occurs) and is an exact multiple of 1000. -/
theorem set_path_hz_multiple_of_1000 (blocked : Bool) (fw fw2 : Transport)
    (jMin jMax policy_cur state_idx : Nat) (s : DriverState) :
    (∀ r : Nat, hz_to_khz r = r / 1000) ∧
    (∀ k : Nat, khz_to_hz k = k * 1000 % U32) ∧
    ∃ c : FwCall,
      (bcm2835_cpufreq_driver_target_index false fw2 policy_cur state_idx
        (bcm2835_cpufreq_driver_init true blocked fw jMin jMax s).state).calls
        = [c] ∧
      c.val = (if state_idx = 0 then
          (bcm2835_cpufreq_driver_init true blocked fw jMin jMax
            s).state.min_frequency
        else
          (bcm2835_cpufreq_driver_init true blocked fw jMin jMax
            s).state.max_frequency) * 1000 ∧
      1000 ∣ c.val := by
  refine ⟨fun r => rfl, fun k => rfl, ?_⟩
  have hmin : (bcm2835_cpufreq_driver_init true blocked fw jMin jMax
      s).state.min_frequency ≤ 4294967 := by
    rw [driver_init_available]
    exact get_clock_fst_le blocked fw RPI_FIRMWARE_GET_MIN_CLOCK_RATE jMin
  have hmax : (bcm2835_cpufreq_driver_init true blocked fw jMin jMax
      s).state.max_frequency ≤ 4294967 := by
    rw [driver_init_available]
    exact get_clock_fst_le blocked fw RPI_FIRMWARE_GET_MAX_CLOCK_RATE jMax
  have htarget : (if state_idx = 0 then
      (bcm2835_cpufreq_driver_init true blocked fw jMin jMax
        s).state.min_frequency
    else
      (bcm2835_cpufreq_driver_init true blocked fw jMin jMax
        s).state.max_frequency) ≤ 4294967 := by
    by_cases h0 : state_idx = 0 <;> simp [h0, hmin, hmax]
  have hlt : (if state_idx = 0 then
      (bcm2835_cpufreq_driver_init true blocked fw jMin jMax
        s).state.min_frequency
    else
      (bcm2835_cpufreq_driver_init true blocked fw jMin jMax
        s).state.max_frequency) * 1000 < U32 := by
    have hU : U32 = 4294967296 := by norm_num [U32]
    rw [hU]
    omega
  refine ⟨_, target_index_calls fw2 policy_cur state_idx _, ?_, ?_⟩
  · rw [khz_to_hz, Nat.mod_eq_of_lt hlt]
  · rw [khz_to_hz, Nat.mod_eq_of_lt hlt]
    exact dvd_mul_left 1000 _

end BCM2835
